import Mathlib

/-!
Verification of the uProtocol-over-Zenoh transport binding (`ULinkZenoh`).

The definitions below are a shallow embedding of `src/src/lib.rs`.
Pure helpers (`to_zenoh_key_string`, `uuid_to_string`, the decimal
content-encoding suffix, the hex listener-handle counter) are translated
directly.  Stateful operations (`send`, `send_publish`, `send_response`,
`invoke_method`, listener registration/unregistration and the queryable
callback) are translated as explicit state-passing functions over the
transport's shared maps, returning a trace of the mesh (Zenoh) operations
they attempt.  External collaborators that live outside this repository
(the uProtocol URI/attribute validators, protobuf encode/decode, and the
Zenoh session primitives) are parameters of an `Env` record, exactly
mirroring the points where the Rust code calls into them and branches on
their success.
-/

/-! ## Decimal and hexadecimal rendering

The Rust code renders the payload-format integer with `i32::to_string`
(decimal), the listener counter with `format!("{:X}", u64)` (uppercase
hex, no padding), and parses content-encoding suffixes with
`str::parse::<i32>()`. -/

/-- Decimal digit character for `n % 10`. -/
def digitChar (n : Nat) : Char :=
  match n with
  | 0 => '0' | 1 => '1' | 2 => '2' | 3 => '3' | 4 => '4'
  | 5 => '5' | 6 => '6' | 7 => '7' | 8 => '8' | 9 => '9'
  | _ => '0'

/-- Uppercase hexadecimal digit character for `n % 16` (Rust `{:X}`). -/
def hexDigitChar (n : Nat) : Char :=
  match n with
  | 0 => '0' | 1 => '1' | 2 => '2' | 3 => '3' | 4 => '4'
  | 5 => '5' | 6 => '6' | 7 => '7' | 8 => '8' | 9 => '9'
  | 10 => 'A' | 11 => 'B' | 12 => 'C' | 13 => 'D' | 14 => 'E' | 15 => 'F'
  | _ => '0'

/-- Numeric value of a decimal digit character. -/
def digitVal (c : Char) : Nat := c.toNat - 48

/-- Numeric value of an uppercase hexadecimal digit character. -/
def hexDigitVal (c : Char) : Nat :=
  if 65 ≤ c.toNat then c.toNat - 55 else c.toNat - 48

/-- `true` iff `c` is an ASCII decimal digit. -/
def isDigitChar (c : Char) : Bool := 48 ≤ c.toNat && c.toNat ≤ 57

/-- Most-significant-first decimal digits of `n` (empty for `0`),
with explicit fuel so the definition is structural and kernel-reducible. -/
def decCoreFuel : Nat → Nat → List Char
  | 0, _ => []
  | fuel + 1, n => if n = 0 then [] else decCoreFuel fuel (n / 10) ++ [digitChar (n % 10)]

/-- Decimal rendering of a natural number, as produced by Rust's `Display`. -/
def decRepr (n : Nat) : List Char :=
  if n = 0 then ['0'] else decCoreFuel (n + 1) n

/-- Most-significant-first uppercase hexadecimal digits of `n` (empty for `0`). -/
def hexCoreFuel : Nat → Nat → List Char
  | 0, _ => []
  | fuel + 1, n => if n = 0 then [] else hexCoreFuel fuel (n / 16) ++ [hexDigitChar (n % 16)]

/-- Uppercase hexadecimal rendering of a natural number (Rust `{:X}`). -/
def hexRepr (n : Nat) : List Char :=
  if n = 0 then ['0'] else hexCoreFuel (n + 1) n

/-- Value of a most-significant-first decimal digit string. -/
def decValCore (l : List Char) : Nat :=
  l.foldl (fun a c => a * 10 + digitVal c) 0

/-- Value of a most-significant-first hexadecimal digit string. -/
def hexValCore (l : List Char) : Nat :=
  l.foldl (fun a c => a * 16 + hexDigitVal c) 0

/-- Parse a nonempty all-digit character list (the digits part of
`str::parse::<i32>` after the optional sign). -/
def parseNatDigits (l : List Char) : Option Nat :=
  if l.isEmpty then none
  else if l.all isDigitChar then some (decValCore l) else none

/-- Character-list core of `str::parse::<i32>()`: optional `+`/`-` sign,
at least one decimal digit, and an `i32` range check. -/
def parseI32Chars : List Char → Option Int
  | [] => none
  | c :: rest =>
    if c = '+' then
      (parseNatDigits rest).bind fun m =>
        if m ≤ 2147483647 then some (m : Int) else none
    else if c = '-' then
      (parseNatDigits rest).bind fun m =>
        if m ≤ 2147483648 then some (-(m : Int)) else none
    else
      (parseNatDigits (c :: rest)).bind fun m =>
        if m ≤ 2147483647 then some (m : Int) else none

/-- Model of Rust `str::parse::<i32>()`. -/
def parseI32 (s : String) : Option Int := parseI32Chars s.data

/-- Model of Rust `i32::to_string()`: decimal digits with a leading `-`
for negative values.  This is the content-encoding suffix the code sends
(`payload.format.to_string()`). -/
def intToDecString (n : Int) : String :=
  if n < 0 then String.mk ('-' :: decRepr n.natAbs) else String.mk (decRepr n.natAbs)


/-! ## uProtocol data model

Mirrors the `uprotocol_sdk::uprotocol` types used by `lib.rs`: `UUri`
(authority/entity/resource), `UAttributes`, `UPayload` with its `Data`
oneof, `UMessage`, `Uuid` (two 64-bit halves) and `UStatus`/`UCode`. -/

/-- The `Remote` oneof of a `UAuthority`: a literal name, or ip/id bytes. -/
inductive Remote where
  | name (s : String)
  | ip (bytes : List Nat)
  | id (bytes : List Nat)
deriving DecidableEq, Repr

structure UAuthority where
  remote : Option Remote
deriving DecidableEq, Repr

structure UEntity where
  name : String
  version_major : Option Nat
deriving DecidableEq, Repr

structure UResource where
  name : String
  instance_ : Option String
  message : Option String
deriving DecidableEq, Repr

structure UUri where
  authority : Option UAuthority
  entity : Option UEntity
  resource : Option UResource
deriving DecidableEq, Repr

/-- 128-bit uProtocol id as two 64-bit halves (`msb`, `lsb`). -/
structure Uuid where
  msb : Nat
  lsb : Nat
deriving DecidableEq, Repr

/-- Envelope attributes; `type` is the raw `i32` message-type tag
(`1` = publish, `2` = request, `3` = response) and `reqid` the optional
reference id linking a response to its request. -/
structure UAttributes where
  type : Int
  reqid : Option Uuid
deriving DecidableEq, Repr

/-- The `Data` oneof of a `UPayload`: a byte-buffer value or a
shared-memory reference (unsupported by this layer). -/
inductive Data where
  | value (bytes : List Nat)
  | reference (addr : Nat)
deriving DecidableEq, Repr

structure UPayload where
  length : Option Int
  format : Int
  data : Option Data
deriving DecidableEq, Repr

structure UMessage where
  source : Option UUri
  attributes : Option UAttributes
  payload : Option UPayload
deriving DecidableEq, Repr

inductive UCode where
  | ok
  | invalidArgument
  | internal
  | unimplemented
deriving DecidableEq, Repr

/-- `UStatus::fail_with_code(code, msg)` carries a code and a message. -/
structure UStatus where
  code : UCode
  message : String
deriving DecidableEq, Repr

/-- The `RpcMapperError` variants `invoke_method` returns. -/
inductive RpcMapperError where
  | unexpectedError (s : String)
  | invalidPayload (s : String)
  | protobufError (s : String)
deriving DecidableEq, Repr

/-! ## Address Mapper (`ULinkZenoh::to_zenoh_key_string`) -/

/-- Replace every occurrence of the character `t` by the string `rep`
(Rust `str::replace` with a one-character pattern). -/
def replaceChar (t : Char) (rep : List Char) : List Char → List Char
  | [] => []
  | c :: rest => (if c = t then rep else [c]) ++ replaceChar t rep rest

/-- Replace every non-overlapping occurrence of `//` by `\/`
(Rust `str::replace("//", "\\/")`), scanning left to right. -/
def replaceDoubleSlash : List Char → List Char
  | [] => []
  | [c] => [c]
  | c1 :: c2 :: rest =>
    if c1 = '/' ∧ c2 = '/' then '\\' :: '/' :: replaceDoubleSlash rest
    else c1 :: replaceDoubleSlash (c2 :: rest)

/-- Modelled from the spec: `LongUriSerializer::serialize` from the
uprotocol SDK (an external collaborator of this repository; only its
output shape is specified).  It renders the canonical long form
`//<authority-name>/<entity-name>/<entity-version>/<resource>.<instance>#<message>`
(the leading `//<authority-name>` part only when a remote authority is
present), and fails on the empty address. -/
def longUriSerialize (uri : UUri) : Except String (List Char) :=
  if uri.authority = none ∧ uri.entity = none ∧ uri.resource = none then
    .error "empty uri"
  else
    let authorityPart : List Char :=
      match uri.authority with
      | some a =>
        match a.remote with
        | some (Remote.name n) => '/' :: '/' :: n.data
        | some _ => ['/', '/']
        | none => []
      | none => []
    let entityPart : List Char :=
      match uri.entity with
      | some e => e.name.data
      | none => []
    let versionPart : List Char :=
      match uri.entity with
      | some e =>
        match e.version_major with
        | some v => decRepr v
        | none => []
      | none => []
    let resourcePart : List Char :=
      match uri.resource with
      | some r =>
        r.name.data ++
          (match r.instance_ with | some i => '.' :: i.data | none => []) ++
          (match r.message with | some m => '#' :: m.data | none => [])
      | none => []
    .ok (authorityPart ++ '/' :: entityPart ++ '/' :: versionPart ++ '/' :: resourcePart)

/-- The code's `is_star_remote` check: the authority is present and its
remote designator is the literal name `"*"`. -/
def isStarRemote (uri : UUri) : Bool :=
  match uri.authority with
  | some a =>
    match a.remote with
    | some (Remote.name n) => n = "*"
    | some _ => false
    | none => false
  | none => false

/-- `ULinkZenoh::to_zenoh_key_string`: serialize the URI, strip one
leading `/`, apply the fixed character-substitution table
(`*`→`\8`, `$`→`\4`, `?`→`\0`, `#`→`\3`, `//`→`\/` in that order),
override the whole string with `**` when the authority remote is the
literal `"*"`, and prepend `up/`. -/
def toZenohKeyString (uri : UUri) : Except UStatus String :=
  match longUriSerialize uri with
  | .error _ => .error ⟨UCode.internal, "Unable to transform to Zenoh key"⟩
  | .ok uriString =>
    let stripped : List Char :=
      match uriString with
      | '/' :: rest => rest
      | l => l
    let escaped :=
      replaceDoubleSlash
        (replaceChar '#' ['\\', '3']
          (replaceChar '?' ['\\', '0']
            (replaceChar '$' ['\\', '4']
              (replaceChar '*' ['\\', '8'] stripped))))
    let zenohKey := if isStarRemote uri then ['*', '*'] else escaped
    .ok (String.mk ('u' :: 'p' :: '/' :: zenohKey))

/-- `ULinkZenoh::uuid_to_string`: `format!("{}:{}", uuid.msb, uuid.lsb)`. -/
def uuidToString (u : Uuid) : String :=
  String.mk (decRepr u.msb ++ ':' :: decRepr u.lsb)

/-- The listener-handle string `format!("{}_{:X}", zenoh_key, counter)`. -/
def mkHandle (zenohKey : String) (counter : Nat) : String :=
  String.mk (zenohKey.data ++ '_' :: hexRepr counter)

/-- The worked example of spec §6 and of the embedded unit test. -/
def exampleUri : UUri :=
  { authority := none
    entity := some { name := "body.access", version_major := some 1 }
    resource := some { name := "door", instance_ := some "front_left", message := some "Door" } }


/-! ## Association-list model of the shared `HashMap`s -/

/-- `HashMap::get`-style lookup on an association list. -/
def lookupA {α : Type} (k : String) : List (String × α) → Option α
  | [] => none
  | (k', v) :: rest => if k' = k then some v else lookupA k rest

/-- `HashMap::insert`: the new binding shadows (replaces) any old one. -/
def insertA {α : Type} (k : String) (v : α) (l : List (String × α)) : List (String × α) :=
  (k, v) :: l.filter fun p => p.1 ≠ k

/-- `HashMap::remove` of key `k`. -/
def removeA {α : Type} (k : String) (l : List (String × α)) : List (String × α) :=
  l.filter fun p => p.1 ≠ k


/-! ## The mesh (Zenoh) side: queries, samples, operations -/

/-- A Zenoh `Value` as seen by this layer: payload bytes plus the
content-encoding suffix string. -/
structure ZValue where
  encodingSuffix : String
  payload : List Nat
deriving DecidableEq, Repr

/-- An in-flight Zenoh `Query` as seen by the queryable callback:
an identity, the optional attachment (named byte blobs) and the
optional carried value. -/
structure Query where
  qid : Nat
  attachment : Option (List (String × List Nat))
  value : Option ZValue
deriving DecidableEq, Repr

/-- A reply sample received by `invoke_method`. -/
structure ReplySample where
  encodingSuffix : String
  payload : List Nat
deriving DecidableEq, Repr

/-- Mesh operations this layer can issue (the observable side effects). -/
inductive MeshOp where
  | put (key : String) (payloadBytes : List Nat) (suffix : String)
      (attachment : List (String × List Nat))
  | get (key : String) (payloadBytes : List Nat) (suffix : String)
      (attachment : List (String × List Nat)) (target : String) (timeoutMs : Nat)
  | reply (q : Query) (key : String) (payloadBytes : List Nat) (suffix : String)
      (attachment : List (String × List Nat))
  | declareQueryable (key : String)
  | declareSubscriber (key : String)
deriving DecidableEq, Repr

/-- What the RPC-server queryable callback does, in order: table writes
and user-listener invocations. -/
inductive Event where
  | storeQuery (key : String) (q : Query)
  | callbackErr (st : UStatus)
  | callbackOk (m : UMessage)
deriving DecidableEq, Repr

/-- External collaborators of `lib.rs`, exactly at the points where the
code calls them and branches on success: the uProtocol URI/attribute
validators, protobuf encode/decode, and the Zenoh primitives'
success/failure. -/
structure Env where
  uriValid : UUri → Bool
  attrValidRequest : UAttributes → Bool
  attrErrDetail : String
  encodeAttr : UAttributes → Option (List Nat)
  encodeUri : UUri → Option (List Nat)
  decodeAttr : List Nat → Option UAttributes
  keyExprOk : String → Bool
  putOk : Bool
  getOk : Bool
  recvErrDetail : String
  queryReply : Option (Except String ReplySample)
  replyAttachOk : Bool
  replyMeshOk : Bool
  declareQueryableOk : Bool
  declareSubscriberOk : Bool

/-- The `ULinkZenoh` shared state: the monotone callback counter and the
three guarded maps. -/
structure TransportState where
  callback_counter : Nat
  subscriber_map : List (String × Unit)
  queryable_map : List (String × Unit)
  query_map : List (String × Query)
deriving DecidableEq, Repr

/-! ## Operations of `ULinkZenoh` -/

/-- `ULinkZenoh::send_publish`: reject non-value payloads, encode
attributes and source URI, then issue one Zenoh `put` with attachment. -/
def sendPublish (env : Env) (zenohKey : String) (topic : UUri)
    (payload : UPayload) (attributes : UAttributes) :
    Except UStatus Unit × List MeshOp :=
  match payload.data with
  | some (Data.value buf) =>
    match env.encodeAttr attributes with
    | none => (.error ⟨UCode.invalidArgument, "Unable to encode UAttributes"⟩, [])
    | some attr =>
      match env.encodeUri topic with
      | none => (.error ⟨UCode.invalidArgument, "Unable to encode topic UUri"⟩, [])
      | some srcUuri =>
        let attachment := [("uattributes", attr), ("src_uuri", srcUuri)]
        let op := MeshOp.put zenohKey buf (intToDecString payload.format) attachment
        if env.putOk then (.ok (), [op])
        else (.error ⟨UCode.internal, "Unable to send with Zenoh"⟩, [op])
  | _ => (.error ⟨UCode.invalidArgument, "Invalid data"⟩, [])

/-- `ULinkZenoh::send_response`: reject non-value payloads, encode
attributes, require `reqid`, build the reply sample, look the pending
query up in the correlation table (`query_map`) and complete it.  The
table itself is only read (`get` + `clone`), never modified. -/
def sendResponse (env : Env) (queryMap : List (String × Query)) (zenohKey : String)
    (payload : UPayload) (attributes : UAttributes) :
    Except UStatus Unit × List MeshOp × List (String × Query) :=
  match payload.data with
  | some (Data.value buf) =>
    match env.encodeAttr attributes with
    | none => (.error ⟨UCode.invalidArgument, "Unable to encode UAttributes"⟩, [], queryMap)
    | some attr =>
      match attributes.reqid with
      | none => (.error ⟨UCode.invalidArgument, "reqid doesn't exist"⟩, [], queryMap)
      | some r =>
        let reqid := uuidToString r
        let attachment := [("uattributes", attr)]
        let suffix := intToDecString payload.format
        if env.keyExprOk zenohKey then
          match lookupA reqid queryMap with
          | none => (.error ⟨UCode.internal, "query doesn't exist"⟩, [], queryMap)
          | some q =>
            if env.replyAttachOk then
              if env.replyMeshOk then
                (.ok (), [MeshOp.reply q zenohKey buf suffix attachment], queryMap)
              else
                (.error ⟨UCode.internal, "Unable to reply with Zenoh"⟩,
                 [MeshOp.reply q zenohKey buf suffix attachment], queryMap)
            else (.error ⟨UCode.internal, "Unable to add attachment"⟩, [], queryMap)
        else (.error ⟨UCode.internal, "Unable to create Zenoh key"⟩, [], queryMap)
  | _ => (.error ⟨UCode.invalidArgument, "Invalid data"⟩, [], queryMap)

/-- `UTransport::send`: validate the URI, map it to a Zenoh key, then
dispatch on the attributes' message-type tag (`1` = publish,
`3` = response, everything else rejected). -/
def send (env : Env) (st : TransportState) (topic : UUri)
    (payload : UPayload) (attributes : UAttributes) :
    Except UStatus Unit × List MeshOp × TransportState :=
  if env.uriValid topic then
    match toZenohKeyString topic with
    | .error e => (.error e, [], st)
    | .ok zenohKey =>
      if attributes.type = 1 then
        let r := sendPublish env zenohKey topic payload attributes
        (r.1, r.2, st)
      else if attributes.type = 3 then
        let r := sendResponse env st.query_map zenohKey payload attributes
        (r.1, r.2.1, { st with query_map := r.2.2 })
      else (.error ⟨UCode.invalidArgument, "Wrong Message type in UAttributes"⟩, [], st)
  else (.error ⟨UCode.invalidArgument, "Invalid topic"⟩, [], st)

/-- `RpcClient::invoke_method`: validate URI and request attributes, map
to a Zenoh key, reject non-value payloads, encode attributes and source
URI, issue a `get` (BestMatching, 2000 ms), then decode the single
reply: its content-encoding suffix is parsed back to the payload-format
integer and the raw reply bytes are wrapped with length metadata `0`. -/
def invokeMethod (env : Env) (topic : UUri)
    (payload : UPayload) (attributes : UAttributes) :
    Except RpcMapperError UPayload × List MeshOp :=
  if env.uriValid topic then
    if env.attrValidRequest attributes then
      match toZenohKeyString topic with
      | .error _ => (.error (.unexpectedError "Unable to transform to Zenoh key"), [])
      | .ok zenohKey =>
        match payload.data with
        | some (Data.value buf) =>
          match env.encodeAttr attributes with
          | none => (.error (.protobufError "Unable to encode UAttributes"), [])
          | some attr =>
            match env.encodeUri topic with
            | none => (.error (.unexpectedError "Unable to serialize source UUri"), [])
            | some srcUuri =>
              let attachment := [("uattributes", attr), ("src_uuri", srcUuri)]
              let op := MeshOp.get zenohKey buf (intToDecString payload.format)
                attachment "BestMatching" 2000
              if env.getOk then
                match env.queryReply with
                | none =>
                  (.error (.unexpectedError
                    ("Error while receiving Zenoh reply: " ++ env.recvErrDetail)), [op])
                | some (.error e) =>
                  (.error (.unexpectedError ("Error while parsing Zenoh reply: " ++ e)), [op])
                | some (.ok sample) =>
                  match parseI32 sample.encodingSuffix with
                  | none => (.error (.unexpectedError "Error while parsing Zenoh encoding"), [op])
                  | some enc =>
                    (.ok { length := some 0, format := enc,
                           data := some (Data.value sample.payload) }, [op])
              else (.error (.unexpectedError "Error while sending Zenoh query"), [])
        | _ => (.error (.invalidPayload "Wrong UPayload"), [])
    else (.error (.unexpectedError ("Wrong UAttributes " ++ env.attrErrDetail)), [])
  else (.error (.unexpectedError "Wrong UUri"), [])

/-- The payload-construction step of the queryable callback: a carried
value yields a value-form payload with the parsed suffix as format and
length metadata `0`; no value yields an unspecified-format payload with
no data; an unparsable suffix is a failure. -/
def queryPayload (q : Query) : Except UStatus UPayload :=
  match q.value with
  | some v =>
    match parseI32 v.encodingSuffix with
    | none => .error ⟨UCode.internal, "Unable to get payload encoding"⟩
    | some enc => .ok { length := some 0, format := enc, data := some (Data.value v.payload) }
  | none => .ok { length := some 0, format := 0, data := none }

/-- The queryable callback installed by `register_rpc_listener`: decode
the attachment's `uattributes`, build the payload and the `UMessage`
(source = the registered method address), then — only if the decoded
attributes carry a `reqid` — store the raw query in the correlation
table under `uuid_to_string(reqid)` and invoke the user listener with
the message; without a `reqid` the listener gets a failure and nothing
is stored.  Returns the new correlation table and the ordered trace of
table writes and listener invocations. -/
def rpcCallback (env : Env) (method : UUri) (queryMap : List (String × Query))
    (query : Query) : List (String × Query) × List Event :=
  match query.attachment with
  | none => (queryMap, [Event.callbackErr ⟨UCode.internal, "Unable to get attachment"⟩])
  | some attachment =>
    match lookupA "uattributes" attachment with
    | none => (queryMap, [Event.callbackErr ⟨UCode.internal, "Unable to get uattributes"⟩])
    | some blob =>
      match env.decodeAttr blob with
      | none => (queryMap, [Event.callbackErr ⟨UCode.internal, "Unable to decode attribute"⟩])
      | some uAttribute =>
        match queryPayload query with
        | .error st => (queryMap, [Event.callbackErr st])
        | .ok uPayload =>
          let msg : UMessage :=
            { source := some method, attributes := some uAttribute, payload := some uPayload }
          match uAttribute.reqid with
          | some r =>
            (insertA (uuidToString r) query queryMap,
             [Event.storeQuery (uuidToString r) query, Event.callbackOk msg])
          | none =>
            (queryMap,
             [Event.callbackErr
               ⟨UCode.internal, "The request is without reqid in UAttributes"⟩])

/-- `RpcServer::register_rpc_listener`: validate the method URI, map it
to a Zenoh key, build the handle `"<key>_<hex counter>"` (the counter is
fetch-and-incremented even if the later declaration fails), declare the
queryable and store it in `queryable_map` under the handle. -/
def registerRpcListener (env : Env) (st : TransportState) (method : UUri) :
    Except UStatus String × List MeshOp × TransportState :=
  if env.uriValid method then
    match toZenohKeyString method with
    | .error e => (.error e, [], st)
    | .ok zenohKey =>
      let hashmapKey := mkHandle zenohKey st.callback_counter
      let st1 := { st with callback_counter := st.callback_counter + 1 }
      if env.declareQueryableOk then
        (.ok hashmapKey, [MeshOp.declareQueryable zenohKey],
         { st1 with queryable_map := insertA hashmapKey () st1.queryable_map })
      else
        (.error ⟨UCode.internal, "Unable to register callback with Zenoh"⟩,
         [MeshOp.declareQueryable zenohKey], st1)
  else (.error ⟨UCode.invalidArgument, "Invalid topic"⟩, [], st)

/-- `RpcServer::unregister_rpc_listener`: validate the method URI, then
remove the handle from `queryable_map`; a missing handle is an
invalid-argument failure. -/
def unregisterRpcListener (env : Env) (st : TransportState) (method : UUri)
    (listener : String) : Except UStatus Unit × TransportState :=
  if env.uriValid method then
    match lookupA listener st.queryable_map with
    | some _ => (.ok (), { st with queryable_map := removeA listener st.queryable_map })
    | none => (.error ⟨UCode.invalidArgument, "Listener doesn't exist"⟩, st)
  else (.error ⟨UCode.invalidArgument, "Invalid topic"⟩, st)

/-- `UTransport::register_listener`: same handle allocation as the RPC
variant, declaring a Zenoh subscriber stored in `subscriber_map`. -/
def registerListener (env : Env) (st : TransportState) (topic : UUri) :
    Except UStatus String × List MeshOp × TransportState :=
  if env.uriValid topic then
    match toZenohKeyString topic with
    | .error e => (.error e, [], st)
    | .ok zenohKey =>
      let hashmapKey := mkHandle zenohKey st.callback_counter
      let st1 := { st with callback_counter := st.callback_counter + 1 }
      if env.declareSubscriberOk then
        (.ok hashmapKey, [MeshOp.declareSubscriber zenohKey],
         { st1 with subscriber_map := insertA hashmapKey () st1.subscriber_map })
      else
        (.error ⟨UCode.internal, "Unable to register callback with Zenoh"⟩,
         [MeshOp.declareSubscriber zenohKey], st1)
  else (.error ⟨UCode.invalidArgument, "Invalid topic"⟩, [], st)

/-- `UTransport::unregister_listener`: validate the topic URI, then
remove the handle from `subscriber_map`; a missing handle is an
invalid-argument failure. -/
def unregisterListener (env : Env) (st : TransportState) (topic : UUri)
    (listener : String) : Except UStatus Unit × TransportState :=
  if env.uriValid topic then
    match lookupA listener st.subscriber_map with
    | some _ => (.ok (), { st with subscriber_map := removeA listener st.subscriber_map })
    | none => (.error ⟨UCode.invalidArgument, "Listener doesn't exist"⟩, st)
  else (.error ⟨UCode.invalidArgument, "Invalid topic"⟩, st)

/-! ## Concrete fixtures -/

/-- A concrete request id. -/
def testUuid : Uuid := { msb := 1, lsb := 2 }

/-- Decoded request attributes carrying `testUuid` as `reqid`. -/
def testReqAttrs : UAttributes := { type := 2, reqid := some testUuid }

/-- Decoded request attributes without a `reqid`. -/
def noReqidAttrs : UAttributes := { type := 2, reqid := none }

/-- Response attributes referencing `testUuid`. -/
def respAttrs : UAttributes := { type := 3, reqid := some testUuid }

/-- Publish attributes. -/
def pubAttrs : UAttributes := { type := 1, reqid := none }

/-- A value-form payload. -/
def valuePayload : UPayload := { length := none, format := 3, data := some (Data.value [5, 6]) }

/-- A reference-form (shared-memory) payload, unsupported by this layer. -/
def refPayload : UPayload := { length := none, format := 3, data := some (Data.reference 9) }

/-- An incoming query carrying a `uattributes` attachment and no value. -/
def testQuery : Query :=
  { qid := 7, attachment := some [("uattributes", [1])], value := none }

/-- An environment where every external collaborator succeeds and the
attachment blob decodes to `testReqAttrs`. -/
def testEnv : Env :=
  { uriValid := fun _ => true
    attrValidRequest := fun _ => true
    attrErrDetail := ""
    encodeAttr := fun _ => some [1]
    encodeUri := fun _ => some [2]
    decodeAttr := fun _ => some testReqAttrs
    keyExprOk := fun _ => true
    putOk := true
    getOk := true
    recvErrDetail := ""
    queryReply := some (.ok { encodingSuffix := "3", payload := [7, 8] })
    replyAttachOk := true
    replyMeshOk := true
    declareQueryableOk := true
    declareSubscriberOk := true }

/-- Like `testEnv` but the attachment blob decodes to attributes with no
`reqid`. -/
def testEnvNoReqid : Env := { testEnv with decodeAttr := fun _ => some noReqidAttrs }

/-- The transport state right after construction. -/
def emptyState : TransportState :=
  { callback_counter := 0, subscriber_map := [], queryable_map := [], query_map := [] }

/-- A transport state holding one registered queryable and one
registered subscriber under handle `"up/a/1/_0"`. -/
def oneHandleState : TransportState :=
  { callback_counter := 1
    subscriber_map := [("up/a/1/_0", ())]
    queryable_map := [("up/a/1/_0", ())]
    query_map := [] }

/-- A wildcard-authority address with entity name `"a"`. -/
def cexUriA : UUri :=
  { authority := some { remote := some (Remote.name "*") }
    entity := some { name := "a", version_major := some 1 }
    resource := none }

/-- A wildcard-authority address with entity name `"b"`, distinct from
`cexUriA`. -/
def cexUriB : UUri :=
  { authority := some { remote := some (Remote.name "*") }
    entity := some { name := "b", version_major := some 1 }
    resource := none }
theorem digitVal_digitChar : ∀ k, k < 10 → digitVal (digitChar k) = k := by decide

theorem hexDigitVal_hexDigitChar : ∀ k, k < 16 → hexDigitVal (hexDigitChar k) = k := by decide

theorem isDigitChar_digitChar : ∀ k, k < 10 → isDigitChar (digitChar k) = true := by decide

theorem decValCore_append_single (l : List Char) (c : Char) :
    decValCore (l ++ [c]) = decValCore l * 10 + digitVal c := by
  simp [decValCore, List.foldl_append]

theorem hexValCore_append_single (l : List Char) (c : Char) :
    hexValCore (l ++ [c]) = hexValCore l * 16 + hexDigitVal c := by
  simp [hexValCore, List.foldl_append]

theorem decValCore_decCoreFuel : ∀ (fuel n : Nat), n < fuel →
    decValCore (decCoreFuel fuel n) = n := by
  intro fuel
  induction fuel with
  | zero => intro n h; exact absurd h (Nat.not_lt_zero n)
  | succ f ih =>
    intro n h
    by_cases h0 : n = 0
    · subst h0; simp [decCoreFuel, decValCore]
    · have hdiv : n / 10 < n := Nat.div_lt_self (Nat.pos_of_ne_zero h0) (by norm_num)
      rw [decCoreFuel, if_neg h0, decValCore_append_single,
        ih (n / 10) (by omega), digitVal_digitChar (n % 10) (Nat.mod_lt n (by norm_num))]
      omega

theorem hexValCore_hexCoreFuel : ∀ (fuel n : Nat), n < fuel →
    hexValCore (hexCoreFuel fuel n) = n := by
  intro fuel
  induction fuel with
  | zero => intro n h; exact absurd h (Nat.not_lt_zero n)
  | succ f ih =>
    intro n h
    by_cases h0 : n = 0
    · subst h0; simp [hexCoreFuel, hexValCore]
    · have hdiv : n / 16 < n := Nat.div_lt_self (Nat.pos_of_ne_zero h0) (by norm_num)
      rw [hexCoreFuel, if_neg h0, hexValCore_append_single,
        ih (n / 16) (by omega), hexDigitVal_hexDigitChar (n % 16) (Nat.mod_lt n (by norm_num))]
      omega

theorem decValCore_decRepr (n : Nat) : decValCore (decRepr n) = n := by
  by_cases h0 : n = 0
  · subst h0; decide
  · rw [decRepr, if_neg h0]
    exact decValCore_decCoreFuel (n + 1) n (Nat.lt_succ_self n)

theorem hexValCore_hexRepr (n : Nat) : hexValCore (hexRepr n) = n := by
  by_cases h0 : n = 0
  · subst h0; decide
  · rw [hexRepr, if_neg h0]
    exact hexValCore_hexCoreFuel (n + 1) n (Nat.lt_succ_self n)

theorem hexRepr_injective {a b : Nat} (h : hexRepr a = hexRepr b) : a = b := by
  have := hexValCore_hexRepr a
  rw [h, hexValCore_hexRepr] at this
  omega

theorem decCoreFuel_all_digits : ∀ (fuel n : Nat),
    (decCoreFuel fuel n).all isDigitChar = true := by
  intro fuel
  induction fuel with
  | zero => intro n; rfl
  | succ f ih =>
    intro n
    by_cases h0 : n = 0
    · subst h0; rfl
    · rw [decCoreFuel, if_neg h0, List.all_append]
      simp [ih (n / 10), isDigitChar_digitChar (n % 10) (Nat.mod_lt n (by norm_num))]

theorem decRepr_all_digits (n : Nat) : (decRepr n).all isDigitChar = true := by
  by_cases h0 : n = 0
  · subst h0; decide
  · rw [decRepr, if_neg h0]; exact decCoreFuel_all_digits (n + 1) n

theorem decCoreFuel_ne_nil (n : Nat) (h : n ≠ 0) : decCoreFuel (n + 1) n ≠ [] := by
  rw [decCoreFuel, if_neg h]
  simp

theorem decRepr_ne_nil (n : Nat) : decRepr n ≠ [] := by
  by_cases h0 : n = 0
  · subst h0; decide
  · rw [decRepr, if_neg h0]; exact decCoreFuel_ne_nil n h0

theorem parseNatDigits_decRepr (n : Nat) : parseNatDigits (decRepr n) = some n := by
  rw [parseNatDigits]
  rw [if_neg (by simpa [List.isEmpty_iff] using decRepr_ne_nil n)]
  rw [if_pos (decRepr_all_digits n), decValCore_decRepr]

theorem isDigitChar_ne_plus {c : Char} (h : isDigitChar c = true) : ¬c = '+' := by
  intro hc; rw [hc] at h; exact absurd h (by decide)

theorem isDigitChar_ne_minus {c : Char} (h : isDigitChar c = true) : ¬c = '-' := by
  intro hc; rw [hc] at h; exact absurd h (by decide)

theorem parseI32Chars_digits (l : List Char) (hne : l ≠ []) (hdig : l.all isDigitChar = true) :
    parseI32Chars l =
      (parseNatDigits l).bind fun m =>
        if m ≤ 2147483647 then some (m : Int) else none := by
  obtain ⟨c, rest, rfl⟩ := List.exists_cons_of_ne_nil hne
  have hc : isDigitChar c = true := by
    simp only [List.all_cons, Bool.and_eq_true] at hdig
    exact hdig.1
  rw [parseI32Chars, if_neg (isDigitChar_ne_plus hc), if_neg (isDigitChar_ne_minus hc)]

/-- Encode-then-decode round trip of the content-encoding suffix: printing
an `i32` with `to_string` and parsing it back with `parse::<i32>` returns
the original integer. -/
theorem parseI32_intToDecString (n : Int)
    (h1 : -2147483648 ≤ n) (h2 : n ≤ 2147483647) :
    parseI32 (intToDecString n) = some n := by
  cases n with
  | ofNat m =>
    simp only [Int.ofNat_eq_natCast] at h1 h2 ⊢
    have hm : m ≤ 2147483647 := by omega
    have hstr : intToDecString ((m : Nat) : Int) = String.mk (decRepr m) := by
      rw [intToDecString, if_neg (not_lt.mpr (by exact_mod_cast Nat.zero_le m))]
      rfl
    rw [hstr]
    show parseI32Chars (decRepr m) = some ((m : Nat) : Int)
    rw [parseI32Chars_digits (decRepr m) (decRepr_ne_nil m) (decRepr_all_digits m),
      parseNatDigits_decRepr, Option.some_bind, if_pos hm]
  | negSucc m =>
    have h1' : -2147483648 ≤ -((m : Int) + 1) := by rw [← Int.negSucc_eq]; exact h1
    have hm : m + 1 ≤ 2147483648 := by omega
    have hstr : intToDecString (Int.negSucc m) = String.mk ('-' :: decRepr (m + 1)) := by
      rw [intToDecString, if_pos (Int.negSucc_lt_zero m)]
      rfl
    rw [hstr]
    show parseI32Chars ('-' :: decRepr (m + 1)) = some (Int.negSucc m)
    rw [parseI32Chars, if_neg (by decide), if_pos rfl, parseNatDigits_decRepr,
      Option.some_bind, if_pos hm]
    rw [Int.negSucc_eq]
    push_cast
    ring_nf
theorem lookupA_insertA_self {α : Type} (k : String) (v : α) (l : List (String × α)) :
    lookupA k (insertA k v l) = some v := by
  simp [lookupA, insertA]

theorem lookupA_removeA_self {α : Type} (k : String) (l : List (String × α)) :
    lookupA k (removeA k l) = none := by
  induction l with
  | nil => rfl
  | cons p rest ih =>
    by_cases h : p.1 = k
    · simpa [removeA, List.filter, h] using ih
    · simpa [removeA, List.filter, h, lookupA] using ih

/-! ## Helper lemmas about the Address Mapper and handles -/

theorem isStarRemote_inv {uri : UUri} (h : isStarRemote uri = true) :
    ∃ a : UAuthority, uri.authority = some a ∧ a.remote = some (Remote.name "*") := by
  rcases huri : uri.authority with _ | a
  · simp [isStarRemote, huri] at h
  · rcases hrem : a.remote with _ | r
    · simp [isStarRemote, huri, hrem] at h
    · cases r with
      | name n =>
        simp only [isStarRemote, huri, hrem, decide_eq_true_eq] at h
        exact ⟨a, rfl, by rw [hrem, h]⟩
      | ip b => simp [isStarRemote, huri, hrem] at h
      | id b => simp [isStarRemote, huri, hrem] at h

theorem toZenohKeyString_of_star {uri : UUri} {a : UAuthority}
    (ha : uri.authority = some a) (hr : a.remote = some (Remote.name "*")) :
    toZenohKeyString uri = .ok "up/**" := by
  have hne : ¬(uri.authority = none ∧ uri.entity = none ∧ uri.resource = none) := by
    rw [ha]; simp
  have hstar : isStarRemote uri = true := by
    simp [isStarRemote, ha, hr]
  rw [toZenohKeyString, longUriSerialize, if_neg hne]
  simp only [hstar, ite_true]

theorem mkHandle_ne {k : String} {i j : Nat} (h : i ≠ j) : mkHandle k i ≠ mkHandle k j := by
  intro he
  apply h
  have hd : k.data ++ '_' :: hexRepr i = k.data ++ '_' :: hexRepr j :=
    congrArg String.data he
  have ht := List.append_cancel_left hd
  exact hexRepr_injective (List.cons.inj ht).2

/-! ## Claim theorems -/

/-- C1: the Address Mapper `to_zenoh_key_string` is a deterministic pure
function, every successful output begins with the fixed prefix `up/`,
and the worked example — entity `body.access` version 1, resource
`door.front_left#Door` — maps to exactly
`up/body.access/1/door.front_left\3Door`. -/
theorem zenoh_key_mapping_deterministic_and_up :
    (∀ (u : UUri) (s1 s2 : String),
        toZenohKeyString u = .ok s1 → toZenohKeyString u = .ok s2 → s1 = s2) ∧
    (∀ (u : UUri) (s : String), toZenohKeyString u = .ok s →
        s.data.take 3 = ['u', 'p', '/']) ∧
    toZenohKeyString exampleUri = .ok "up/body.access/1/door.front_left\\3Door" := by
  refine ⟨fun u s1 s2 h1 h2 => Except.ok.inj (h1.symm.trans h2), fun u s h => ?_, rfl⟩
  cases hser : longUriSerialize u with
  | error e =>
    simp only [toZenohKeyString, hser] at h
    exact Except.noConfusion h
  | ok l =>
    simp only [toZenohKeyString, hser] at h
    rw [← Except.ok.inj h]
    rfl

/-- C1 witness: the theorem applied at the worked example. -/
theorem zenoh_key_mapping_witness :
    ("up/body.access/1/door.front_left\\3Door" : String).data.take 3 = ['u', 'p', '/'] :=
  zenoh_key_mapping_deterministic_and_up.2.1 exampleUri _ rfl

/-- C2: any address whose authority carries the remote literal name `"*"`
maps to exactly `up/**`, regardless of its entity and resource. -/
theorem wildcard_authority_maps_to_double_star :
    ∀ (uri : UUri) (a : UAuthority),
      uri.authority = some a → a.remote = some (Remote.name "*") →
      toZenohKeyString uri = .ok "up/**" :=
  fun _ _ ha hr => toZenohKeyString_of_star ha hr

/-- C2 witness: a wildcard-authority address with nonempty entity maps
to `up/**`. -/
theorem wildcard_authority_witness : toZenohKeyString cexUriA = .ok "up/**" :=
  wildcard_authority_maps_to_double_star cexUriA { remote := some (Remote.name "*") } rfl rfl

/-- C4 counterexample: the mapping is not 1:1 — `cexUriA` and `cexUriB`
are distinct addresses (entity `a` vs entity `b`) yet map to the same
key expression (both have the wildcard authority, so both yield
`up/**`). -/
theorem address_mapping_not_one_to_one_cex :
    cexUriA ≠ cexUriB ∧ toZenohKeyString cexUriA = toZenohKeyString cexUriB :=
  ⟨by decide, rfl⟩

/-- C4 (amended): the mapping is deterministic but not injective; in
particular every two wildcard-authority addresses map to the same key
expression. -/
theorem star_addresses_share_zenoh_key :
    ∀ u v : UUri, isStarRemote u = true → isStarRemote v = true →
      toZenohKeyString u = toZenohKeyString v := by
  intro u v hu hv
  obtain ⟨a, ha, hra⟩ := isStarRemote_inv hu
  obtain ⟨b, hb, hrb⟩ := isStarRemote_inv hv
  rw [toZenohKeyString_of_star ha hra, toZenohKeyString_of_star hb hrb]

/-- C4 witness: the amended claim applied at two concrete
wildcard-authority addresses. -/
theorem star_addresses_share_zenoh_key_witness :
    toZenohKeyString cexUriB = toZenohKeyString cexUriA :=
  star_addresses_share_zenoh_key cexUriB cexUriA (by decide) (by decide)

/-- C5: listener handles have the form `"<mapped-key>_<hex counter>"`
and are pairwise distinct for distinct counter values; each successful
registration (RPC or subscription) returns the handle built from the
current counter and increments it; a registered handle can be
unregistered exactly once, and a second unregister with the same handle
fails with the invalid-argument error `Listener doesn't exist`. -/
theorem listener_handles_unique_and_unregister_once :
    (∀ (k : String) (i j : Nat), i ≠ j → mkHandle k i ≠ mkHandle k j) ∧
    (∀ (env : Env) (st : TransportState) (method : UUri) (zenohKey : String),
      env.uriValid method = true → toZenohKeyString method = .ok zenohKey →
      env.declareQueryableOk = true →
      registerRpcListener env st method =
        (.ok (mkHandle zenohKey st.callback_counter),
         [MeshOp.declareQueryable zenohKey],
         { st with
             callback_counter := st.callback_counter + 1
             queryable_map :=
               insertA (mkHandle zenohKey st.callback_counter) () st.queryable_map })) ∧
    (∀ (env : Env) (st : TransportState) (topic : UUri) (zenohKey : String),
      env.uriValid topic = true → toZenohKeyString topic = .ok zenohKey →
      env.declareSubscriberOk = true →
      registerListener env st topic =
        (.ok (mkHandle zenohKey st.callback_counter),
         [MeshOp.declareSubscriber zenohKey],
         { st with
             callback_counter := st.callback_counter + 1
             subscriber_map :=
               insertA (mkHandle zenohKey st.callback_counter) () st.subscriber_map })) ∧
    (∀ (env : Env) (st : TransportState) (method : UUri) (h : String),
      env.uriValid method = true → (lookupA h st.queryable_map).isSome = true →
      unregisterRpcListener env st method h =
        (.ok (), { st with queryable_map := removeA h st.queryable_map }) ∧
      unregisterRpcListener env { st with queryable_map := removeA h st.queryable_map }
          method h =
        (.error ⟨UCode.invalidArgument, "Listener doesn't exist"⟩,
         { st with queryable_map := removeA h st.queryable_map })) ∧
    (∀ (env : Env) (st : TransportState) (topic : UUri) (h : String),
      env.uriValid topic = true → (lookupA h st.subscriber_map).isSome = true →
      unregisterListener env st topic h =
        (.ok (), { st with subscriber_map := removeA h st.subscriber_map }) ∧
      unregisterListener env { st with subscriber_map := removeA h st.subscriber_map }
          topic h =
        (.error ⟨UCode.invalidArgument, "Listener doesn't exist"⟩,
         { st with subscriber_map := removeA h st.subscriber_map })) := by
  refine ⟨fun k i j hij => mkHandle_ne hij, ?_, ?_, ?_, ?_⟩
  · intro env st method zenohKey hv hk hd
    simp [registerRpcListener, hv, hk, hd]
  · intro env st topic zenohKey hv hk hd
    simp [registerListener, hv, hk, hd]
  · intro env st method h hv hsome
    obtain ⟨u, hu⟩ := Option.isSome_iff_exists.mp hsome
    exact ⟨by simp [unregisterRpcListener, hv, hu],
      by simp [unregisterRpcListener, hv, lookupA_removeA_self]⟩
  · intro env st topic h hv hsome
    obtain ⟨u, hu⟩ := Option.isSome_iff_exists.mp hsome
    exact ⟨by simp [unregisterListener, hv, hu],
      by simp [unregisterListener, hv, lookupA_removeA_self]⟩

/-- C5 witness: the theorem applied at concrete states — distinct
counters give distinct handles, a registration on `exampleUri` returns
the expected handle and state, and unregistering the one stored handle
succeeds once then fails. -/
theorem listener_handles_witness :
    mkHandle "up/a/1/" 0 ≠ mkHandle "up/a/1/" 1 ∧
    registerRpcListener testEnv emptyState exampleUri =
      (.ok (mkHandle "up/body.access/1/door.front_left\\3Door" emptyState.callback_counter),
       [MeshOp.declareQueryable "up/body.access/1/door.front_left\\3Door"],
       { emptyState with
           callback_counter := emptyState.callback_counter + 1
           queryable_map :=
             insertA (mkHandle "up/body.access/1/door.front_left\\3Door"
               emptyState.callback_counter) () emptyState.queryable_map }) ∧
    unregisterRpcListener testEnv oneHandleState exampleUri "up/a/1/_0" =
      (.ok (), { oneHandleState with
                   queryable_map := removeA "up/a/1/_0" oneHandleState.queryable_map }) ∧
    unregisterRpcListener testEnv
        { oneHandleState with
            queryable_map := removeA "up/a/1/_0" oneHandleState.queryable_map }
        exampleUri "up/a/1/_0" =
      (.error ⟨UCode.invalidArgument, "Listener doesn't exist"⟩,
       { oneHandleState with
           queryable_map := removeA "up/a/1/_0" oneHandleState.queryable_map }) :=
  ⟨listener_handles_unique_and_unregister_once.1 "up/a/1/" 0 1 (by decide),
   listener_handles_unique_and_unregister_once.2.1 testEnv emptyState exampleUri
     "up/body.access/1/door.front_left\\3Door" rfl rfl rfl,
   (listener_handles_unique_and_unregister_once.2.2.2.1 testEnv oneHandleState exampleUri
     "up/a/1/_0" rfl rfl).1,
   (listener_handles_unique_and_unregister_once.2.2.2.1 testEnv oneHandleState exampleUri
     "up/a/1/_0" rfl rfl).2⟩

/-- C10: a `send` whose attributes carry a message-type tag other than
publish (`1`) or response (`3`) fails with the invalid-argument error
`Wrong Message type in UAttributes`, performs no mesh operation, and
leaves the transport state unchanged. -/
theorem wrong_message_type_rejected :
    ∀ (env : Env) (st : TransportState) (topic : UUri) (payload : UPayload)
      (attrs : UAttributes) (zenohKey : String),
      env.uriValid topic = true → toZenohKeyString topic = .ok zenohKey →
      attrs.type ≠ 1 → attrs.type ≠ 3 →
      send env st topic payload attrs =
        (.error ⟨UCode.invalidArgument, "Wrong Message type in UAttributes"⟩, [], st) := by
  intro env st topic payload attrs zenohKey hv hk h1 h3
  simp [send, hv, hk, h1, h3]

/-- C10 witness: the theorem applied to request-type attributes
(tag `2`). -/
theorem wrong_message_type_witness :
    send testEnv emptyState exampleUri valuePayload noReqidAttrs =
      (.error ⟨UCode.invalidArgument, "Wrong Message type in UAttributes"⟩, [], emptyState) :=
  wrong_message_type_rejected testEnv emptyState exampleUri valuePayload noReqidAttrs
    "up/body.access/1/door.front_left\\3Door" rfl rfl (by decide) (by decide)

/-- C6: `send` with publish-type attributes, and `invoke_method`, both
reject a payload whose data is not the byte-buffer value variant —
`InvalidArgument "Invalid data"` for publish and
`InvalidPayload "Wrong UPayload"` for invoke — before any mesh operation
is attempted (empty operation trace) and without touching the transport
state. -/
theorem invalid_payload_rejected_before_mesh :
    (∀ (env : Env) (st : TransportState) (topic : UUri) (payload : UPayload)
       (attrs : UAttributes) (zenohKey : String),
      env.uriValid topic = true → toZenohKeyString topic = .ok zenohKey →
      attrs.type = 1 → (∀ b, payload.data ≠ some (Data.value b)) →
      send env st topic payload attrs =
        (.error ⟨UCode.invalidArgument, "Invalid data"⟩, [], st)) ∧
    (∀ (env : Env) (topic : UUri) (payload : UPayload) (attrs : UAttributes)
       (zenohKey : String),
      env.uriValid topic = true → env.attrValidRequest attrs = true →
      toZenohKeyString topic = .ok zenohKey →
      (∀ b, payload.data ≠ some (Data.value b)) →
      invokeMethod env topic payload attrs =
        (.error (RpcMapperError.invalidPayload "Wrong UPayload"), [])) := by
  constructor
  · intro env st topic payload attrs zenohKey hv hk ht hne
    rcases hd : payload.data with _ | d
    · simp [send, sendPublish, hv, hk, ht, hd]
    · cases d with
      | value b => exact absurd hd (hne b)
      | reference a => simp [send, sendPublish, hv, hk, ht, hd]
  · intro env topic payload attrs zenohKey hv ha hk hne
    rcases hd : payload.data with _ | d
    · simp [invokeMethod, hv, ha, hk, hd]
    · cases d with
      | value b => exact absurd hd (hne b)
      | reference a => simp [invokeMethod, hv, ha, hk, hd]

/-- C6 witness: the theorem applied to a reference-form
(shared-memory) payload. -/
theorem invalid_payload_witness :
    send testEnv emptyState exampleUri refPayload pubAttrs =
      (.error ⟨UCode.invalidArgument, "Invalid data"⟩, [], emptyState) ∧
    invokeMethod testEnv exampleUri refPayload testReqAttrs =
      (.error (RpcMapperError.invalidPayload "Wrong UPayload"), []) :=
  ⟨invalid_payload_rejected_before_mesh.1 testEnv emptyState exampleUri refPayload pubAttrs
      "up/body.access/1/door.front_left\\3Door" rfl rfl rfl
      (fun b h => by simp [refPayload] at h),
   invalid_payload_rejected_before_mesh.2 testEnv exampleUri refPayload testReqAttrs
      "up/body.access/1/door.front_left\\3Door" rfl rfl rfl
      (fun b h => by simp [refPayload] at h)⟩

/-- C7: when `invoke_method` receives a successful reply sample, it
returns a value-form payload whose length metadata is `Some 0`, whose
format is the integer parsed from the reply's content-encoding suffix,
and whose data is the raw reply bytes unmodified; if the suffix does not
parse as an integer, the distinct error
`Error while parsing Zenoh encoding` is reported. -/
theorem invoke_reply_payload_decoding :
    ∀ (env : Env) (topic : UUri) (payload : UPayload) (attrs : UAttributes)
      (zenohKey : String) (buf attr src : List Nat) (sample : ReplySample),
      env.uriValid topic = true → env.attrValidRequest attrs = true →
      toZenohKeyString topic = .ok zenohKey →
      payload.data = some (Data.value buf) →
      env.encodeAttr attrs = some attr → env.encodeUri topic = some src →
      env.getOk = true → env.queryReply = some (.ok sample) →
      ((∀ n : Int, parseI32 sample.encodingSuffix = some n →
          (invokeMethod env topic payload attrs).1 =
            .ok { length := some 0, format := n,
                  data := some (Data.value sample.payload) }) ∧
       (parseI32 sample.encodingSuffix = none →
          (invokeMethod env topic payload attrs).1 =
            .error (.unexpectedError "Error while parsing Zenoh encoding"))) := by
  intro env topic payload attrs zenohKey buf attr src sample hv ha hk hd he hu hg hr
  constructor
  · intro n hp
    simp [invokeMethod, hv, ha, hk, hd, he, hu, hg, hr, hp]
  · intro hp
    simp [invokeMethod, hv, ha, hk, hd, he, hu, hg, hr, hp]

/-- C7 witness: with a reply sample carrying suffix `"3"` and bytes
`[7, 8]`, invoke returns format `3`, length `Some 0` and the raw
bytes. -/
theorem invoke_reply_witness :
    (invokeMethod testEnv exampleUri valuePayload testReqAttrs).1 =
      .ok { length := some 0, format := 3, data := some (Data.value [7, 8]) } :=
  (invoke_reply_payload_decoding testEnv exampleUri valuePayload testReqAttrs
      "up/body.access/1/door.front_left\\3Door" [5, 6] [1] [2]
      { encodingSuffix := "3", payload := [7, 8] }
      rfl rfl rfl rfl rfl rfl rfl rfl).1 3 rfl

/-- C8: encoding an integer payload-format code as the content-encoding
suffix (its decimal string) and decoding the suffix back (parsing as
`i32`) returns the original integer, for every code in the `i32` range —
in particular for every code of the supported `UPayloadFormat` range. -/
theorem payload_format_suffix_roundtrip :
    ∀ n : Int, -2147483648 ≤ n → n ≤ 2147483647 →
      parseI32 (intToDecString n) = some n :=
  fun n h1 h2 => parseI32_intToDecString n h1 h2

/-- C8 witness: the round trip at format code `3`. -/
theorem payload_format_roundtrip_witness : parseI32 (intToDecString 3) = some 3 :=
  payload_format_suffix_roundtrip 3 (by decide) (by decide)

/-- C9: in the RPC-server queryable callback, once the attachment's
`uattributes` blob has been decoded, a missing `reqid` makes the user
listener receive a failure, stores nothing in the correlation table and
never reaches the success path; with a `reqid` present (and the payload
step succeeding) the query is stored under the stringified id before the
success callback fires. -/
theorem rpc_callback_reqid_gating :
    ∀ (env : Env) (method : UUri) (qmap : List (String × Query)) (q : Query)
      (att : List (String × List Nat)) (blob : List Nat) (uattr : UAttributes),
      q.attachment = some att → lookupA "uattributes" att = some blob →
      env.decodeAttr blob = some uattr →
      ((uattr.reqid = none →
          ∃ st : UStatus,
            rpcCallback env method qmap q = (qmap, [Event.callbackErr st])) ∧
       (∀ (r : Uuid) (up : UPayload),
          uattr.reqid = some r → queryPayload q = .ok up →
          rpcCallback env method qmap q =
            (insertA (uuidToString r) q qmap,
             [Event.storeQuery (uuidToString r) q,
              Event.callbackOk
                { source := some method, attributes := some uattr,
                  payload := some up }]))) := by
  intro env method qmap q att blob uattr hatt hblob hdec
  constructor
  · intro hreq
    cases hqp : queryPayload q with
    | error st =>
      exact ⟨st, by simp [rpcCallback, hatt, hblob, hdec, hqp]⟩
    | ok up =>
      exact ⟨⟨UCode.internal, "The request is without reqid in UAttributes"⟩,
        by simp [rpcCallback, hatt, hblob, hdec, hqp, hreq]⟩
  · intro r up hreq hqp
    simp [rpcCallback, hatt, hblob, hdec, hqp, hreq]

/-- C9 witness: the theorem applied on a query whose attributes decode
without a `reqid` (failure, nothing stored) and on one with a `reqid`
(stored, then success callback). -/
theorem rpc_callback_reqid_witness :
    (∃ st : UStatus,
      rpcCallback testEnvNoReqid exampleUri [] testQuery = ([], [Event.callbackErr st])) ∧
    rpcCallback testEnv exampleUri [] testQuery =
      (insertA (uuidToString testUuid) testQuery [],
       [Event.storeQuery (uuidToString testUuid) testQuery,
        Event.callbackOk
          { source := some exampleUri, attributes := some testReqAttrs,
            payload := some { length := some 0, format := 0, data := none } }]) :=
  ⟨(rpc_callback_reqid_gating testEnvNoReqid exampleUri [] testQuery
      [("uattributes", [1])] [1] noReqidAttrs rfl rfl rfl).1 rfl,
   (rpc_callback_reqid_gating testEnv exampleUri [] testQuery
      [("uattributes", [1])] [1] testReqAttrs rfl rfl rfl).2 testUuid
     { length := some 0, format := 0, data := none } rfl rfl⟩

/-- C3: an RPC-server callback that observes a request with reference id
`r` stores the raw query in the correlation table under
`uuid_to_string(r)` (`"<msb>:<lsb>"` decimal); a later `send_response`
whose attributes carry the same `reqid` finds and completes that exact
stored query, leaving the table unchanged; a `send_response` whose
`reqid` has no table entry fails with the internal error
`query doesn't exist`, performs no mesh operation, and leaves every
table entry untouched. -/
theorem correlation_table_correctness :
    (∀ (env : Env) (method : UUri) (qmap : List (String × Query)) (q : Query)
       (att : List (String × List Nat)) (blob : List Nat) (uattr : UAttributes)
       (r : Uuid) (up : UPayload) (zenohKey : String) (payload : UPayload)
       (attrs : UAttributes) (buf attrBytes : List Nat),
      q.attachment = some att → lookupA "uattributes" att = some blob →
      env.decodeAttr blob = some uattr → queryPayload q = .ok up →
      uattr.reqid = some r →
      payload.data = some (Data.value buf) → env.encodeAttr attrs = some attrBytes →
      attrs.reqid = some r → env.keyExprOk zenohKey = true →
      env.replyAttachOk = true → env.replyMeshOk = true →
      (rpcCallback env method qmap q).1 = insertA (uuidToString r) q qmap ∧
      lookupA (uuidToString r) (insertA (uuidToString r) q qmap) = some q ∧
      sendResponse env (insertA (uuidToString r) q qmap) zenohKey payload attrs =
        (.ok (),
         [MeshOp.reply q zenohKey buf (intToDecString payload.format)
            [("uattributes", attrBytes)]],
         insertA (uuidToString r) q qmap)) ∧
    (∀ (env : Env) (qmap : List (String × Query)) (zenohKey : String)
       (payload : UPayload) (attrs : UAttributes) (buf attrBytes : List Nat) (r : Uuid),
      payload.data = some (Data.value buf) → env.encodeAttr attrs = some attrBytes →
      attrs.reqid = some r → env.keyExprOk zenohKey = true →
      lookupA (uuidToString r) qmap = none →
      sendResponse env qmap zenohKey payload attrs =
        (.error ⟨UCode.internal, "query doesn't exist"⟩, [], qmap)) := by
  constructor
  · intro env method qmap q att blob uattr r up zenohKey payload attrs buf attrBytes
      hatt hblob hdec hqp hreq hd he har hkey hattach hmesh
    refine ⟨by simp [rpcCallback, hatt, hblob, hdec, hqp, hreq],
      lookupA_insertA_self _ _ _, ?_⟩
    simp [sendResponse, hd, he, har, hkey, lookupA_insertA_self, hattach, hmesh]
  · intro env qmap zenohKey payload attrs buf attrBytes r hd he har hkey hlook
    simp [sendResponse, hd, he, har, hkey, hlook]

/-- C3 witness: the theorem applied at a concrete query stored under
`"1:2"` and a concrete response referencing it; and at an empty table
where the response fails with `query doesn't exist`. -/
theorem correlation_table_witness :
    ((rpcCallback testEnv exampleUri [] testQuery).1 =
        insertA (uuidToString testUuid) testQuery [] ∧
      lookupA (uuidToString testUuid) (insertA (uuidToString testUuid) testQuery []) =
        some testQuery ∧
      sendResponse testEnv (insertA (uuidToString testUuid) testQuery [])
          "up/k" valuePayload respAttrs =
        (.ok (),
         [MeshOp.reply testQuery "up/k" [5, 6] (intToDecString valuePayload.format)
            [("uattributes", [1])]],
         insertA (uuidToString testUuid) testQuery [])) ∧
    sendResponse testEnv [] "up/k" valuePayload respAttrs =
      (.error ⟨UCode.internal, "query doesn't exist"⟩, [], []) :=
  ⟨correlation_table_correctness.1 testEnv exampleUri [] testQuery
      [("uattributes", [1])] [1] testReqAttrs testUuid
      { length := some 0, format := 0, data := none } "up/k" valuePayload respAttrs
      [5, 6] [1] rfl rfl rfl rfl rfl rfl rfl rfl rfl rfl rfl,
   correlation_table_correctness.2 testEnv [] "up/k" valuePayload respAttrs
      [5, 6] [1] testUuid rfl rfl rfl rfl rfl⟩
